import Mathlib

/-!
Shallow embedding of the Babylon.js glTF 2.0 exporter core
(packages/dev/serializers/src/glTF/2.0/glTFExporter.ts and the
glTFUtilities module embedded in the same source file), together with
proofs about the deduplication cache, GLB container framing, padding,
position bounds, descriptor builders, attribute/fill-mode mappings,
no-op root pruning and the extension hook pipeline.

JavaScript `Map` objects keyed on object identity are modelled as
association lists keyed on `Nat` handles (one handle per source object
identity).  `Map.get` returns `Option`, `Map.set` replaces the first
binding or appends a fresh one, exactly mirroring `Map` semantics.
-/

namespace GLTF

/-- Association-list model of a JavaScript `Map` with `Nat` keys. -/
abbrev JsMap (β : Type) := List (Nat × β)

/-- `Map.get`: first binding for the key, if any. -/
def jsGet {β : Type} : JsMap β → Nat → Option β
  | [], _ => none
  | (k, v) :: rest, key => if k = key then some v else jsGet rest key

/-- `Map.set`: replace the first binding for the key, or append one. -/
def jsSet {β : Type} : JsMap β → Nat → β → JsMap β
  | [], key, value => [(key, value)]
  | (k, v) :: rest, key, value =>
    if k = key then (k, value) :: rest else (k, v) :: jsSet rest key value

/--
Embedding of `ExporterState` (glTFExporter.ts).  The five private maps are
keyed on object identities (indices arrays, `Buffer`s, `VertexBuffer`s,
`Mesh`es), modelled as `Nat` handles.  The two nested-map caches map
identity → start → count → glTF index.
-/
structure ExporterState where
  indicesBufferViewMap : JsMap Nat
  indicesAccessorMap : JsMap (JsMap (JsMap Nat))
  attributeBufferViewMap : JsMap Nat
  attributeAccessorMap : JsMap (JsMap (JsMap Nat))
  meshMap : JsMap Nat
deriving DecidableEq

/-- A fresh `ExporterState`: all five maps start empty. -/
def ExporterState.empty : ExporterState :=
  { indicesBufferViewMap := []
    indicesAccessorMap := []
    attributeBufferViewMap := []
    attributeAccessorMap := []
    meshMap := [] }

/-- `ExporterState.getIndicesBufferView`. -/
def getIndicesBufferView (s : ExporterState) (indices : Nat) : Option Nat :=
  jsGet s.indicesBufferViewMap indices

/-- `ExporterState.setIndicesBufferView`. -/
def setIndicesBufferView (s : ExporterState) (indices bufferViewIndex : Nat) : ExporterState :=
  { s with indicesBufferViewMap := jsSet s.indicesBufferViewMap indices bufferViewIndex }

/-- `ExporterState.getIndicesAccessor`: three chained `Map.get`s, returning
`undefined` (here `none`) as soon as one level is missing. -/
def getIndicesAccessor (s : ExporterState) (indices indexStart indexCount : Nat) : Option Nat :=
  match jsGet s.indicesAccessorMap indices with
  | none => none
  | some map1 =>
    match jsGet map1 indexStart with
    | none => none
    | some map2 => jsGet map2 indexCount

/--
Embedding of `ExporterState.setIndicesAccessor`.  The source reads

  `const map1 = this._indicesAccessorMap.get(indices) ?? new Map(...); `
  `const map2 = map1.get(indexStart) ?? new Map(); `
  `map2.set(indexCount, accessorIndex);`

A map freshly created by `??` is never inserted into its parent map, so the
final `map2.set` is observable in the state only when both `map1` and `map2`
already existed; in every other case the mutation happens on a garbage map
and the state is unchanged.  The embedding reproduces exactly that
observable behaviour.
-/
def setIndicesAccessor (s : ExporterState) (indices indexStart indexCount accessorIndex : Nat) :
    ExporterState :=
  match jsGet s.indicesAccessorMap indices with
  | none => s
  | some map1 =>
    match jsGet map1 indexStart with
    | none => s
    | some map2 =>
      { s with
        indicesAccessorMap :=
          jsSet s.indicesAccessorMap indices
            (jsSet map1 indexStart (jsSet map2 indexCount accessorIndex)) }

/-- `ExporterState.getAttributeBufferView`. -/
def getAttributeBufferView (s : ExporterState) (buffer : Nat) : Option Nat :=
  jsGet s.attributeBufferViewMap buffer

/-- `ExporterState.setAttributeBufferView`. -/
def setAttributeBufferView (s : ExporterState) (buffer bufferViewIndex : Nat) : ExporterState :=
  { s with attributeBufferViewMap := jsSet s.attributeBufferViewMap buffer bufferViewIndex }

/-- `ExporterState.getAttributeAccessor`: same chained lookup shape as
`getIndicesAccessor`. -/
def getAttributeAccessor (s : ExporterState) (vertexBuffer vertexStart vertexCount : Nat) :
    Option Nat :=
  match jsGet s.attributeAccessorMap vertexBuffer with
  | none => none
  | some map1 =>
    match jsGet map1 vertexStart with
    | none => none
    | some map2 => jsGet map2 vertexCount

/-- Embedding of `ExporterState.setAttributeAccessor`; it has exactly the same
lost-insertion behaviour as `setIndicesAccessor` (fresh `??` maps are never
linked into the parent map). -/
def setAttributeAccessor (s : ExporterState) (vertexBuffer vertexStart vertexCount accessorIndex : Nat) :
    ExporterState :=
  match jsGet s.attributeAccessorMap vertexBuffer with
  | none => s
  | some map1 =>
    match jsGet map1 vertexStart with
    | none => s
    | some map2 =>
      { s with
        attributeAccessorMap :=
          jsSet s.attributeAccessorMap vertexBuffer
            (jsSet map1 vertexStart (jsSet map2 vertexCount accessorIndex)) }

/-- `ExporterState.getMesh`. -/
def getMesh (s : ExporterState) (mesh : Nat) : Option Nat :=
  jsGet s.meshMap mesh

/-- `ExporterState.setMesh`. -/
def setMesh (s : ExporterState) (mesh meshIndex : Nat) : ExporterState :=
  { s with meshMap := jsSet s.meshMap mesh meshIndex }

/--
The indices-accessor step of `GLTFExporter._exportMeshAsync` for one submesh:

  `const accessorIndex = state.getIndicesAccessor(indices, start, count) ?? `
  `    this._exportIndices(...); `
  `state.setIndicesAccessor(indices, start, count, accessorIndex);`

`_exportIndices` pushes a new accessor, whose index is the current length of
`_accessors`.  The function returns the accessor index assigned to the
primitive, the updated state and the updated `_accessors.length`.
-/
def exportIndicesAccessorStep (s : ExporterState) (accessorsLen : Nat)
    (indices indexStart indexCount : Nat) : Nat × ExporterState × Nat :=
  match getIndicesAccessor s indices indexStart indexCount with
  | some accessorIndex =>
    (accessorIndex, setIndicesAccessor s indices indexStart indexCount accessorIndex, accessorsLen)
  | none =>
    let accessorIndex := accessorsLen
    (accessorIndex, setIndicesAccessor s indices indexStart indexCount accessorIndex,
      accessorsLen + 1)

/-- JavaScript `a || b` on an optional number: the fallback is taken when the
left side is `undefined` or the falsy number `0`. -/
def jsOrNum (cached : Option Nat) (fallback : Nat) : Nat :=
  match cached with
  | none => fallback
  | some i => if i = 0 then fallback else i

/--
The mesh-resolution step of `GLTFExporter._exportNodeAsync` for a node with
renderable geometry:

  `const meshIndex = state.getMesh(babylonMesh) || await this._exportMeshAsync(babylonMesh); `
  `state.setMesh(babylonMesh, meshIndex);`

`_exportMeshAsync` pushes a new entry to `_meshes` and returns its index
(`_meshes.length - 1` after the push).  Because `||` is used, the fallback
export runs whenever the cached value is `undefined` or `0`.  Returns the
mesh index assigned to the node, the updated state and the updated
`_meshes.length`.
-/
def resolveNodeMesh (s : ExporterState) (meshesLen : Nat) (mesh : Nat) :
    Nat × ExporterState × Nat :=
  match getMesh s mesh with
  | some i =>
    if i = 0 then
      let meshIndex := meshesLen
      (meshIndex, setMesh s mesh meshIndex, meshesLen + 1)
    else
      (i, setMesh s mesh i, meshesLen)
  | none =>
    let meshIndex := meshesLen
    (meshIndex, setMesh s mesh meshIndex, meshesLen + 1)

/-- `GLTFExporter._getPadding`: `remainder = num % 4;`
`padding = remainder === 0 ? remainder : 4 - remainder`. -/
def getPadding (num : Nat) : Nat :=
  let remainder := num % 4
  if remainder = 0 then remainder else 4 - remainder

/-- Little-endian byte encoding of `DataView.setUint32(offset, v, true)`:
the four bytes written for the value `v` (stored modulo `2 ^ 32`). -/
def u32LE (v : Nat) : List Nat :=
  [v % 256, v / 256 % 256, v / 65536 % 256, v / 16777216 % 256]

/-- Little-endian decoding of four bytes, as a GLB reader would perform it. -/
def decodeU32 (bytes : List Nat) : Nat :=
  bytes.getD 0 0 + 256 * bytes.getD 1 0 + 65536 * bytes.getD 2 0 + 16777216 * bytes.getD 3 0

/-- The `byteLength` total computed in `GLTFExporter.generateGLBAsync`:
`headerLength + 2 * chunkLengthPrefix + jsonLength + jsonPadding +`
`binaryBuffer.byteLength + binPadding + imageByteLength + imagePadding`. -/
def glbByteLength (jsonBytes binBytes : List Nat) (images : List (List Nat)) : Nat :=
  12 + 2 * 8 + jsonBytes.length + getPadding jsonBytes.length +
    binBytes.length + getPadding binBytes.length +
    (images.map List.length).sum + getPadding (images.map List.length).sum

/--
Embedding of the byte-assembly part of `GLTFExporter.generateGLBAsync`.
`jsonBytes` is the UTF-8 encoding of the JSON text (`encodedJsonText`),
`binBytes` the geometry buffer (`binaryBuffer`), `images` the
`_orderedImageData` contents.  The output is the concatenation of the
segments in the order they are pushed into `glbData` and then written to the
blob: header, JSON chunk (prefix, text, `0x20` padding), binary chunk prefix,
geometry bytes, each image's bytes, the `binPaddingBuffer` zeros, the
`imagePaddingBuffer` zeros.  The binary chunk prefix declares
`binaryBuffer.byteLength + imageByteLength + imagePadding` bytes.
-/
def generateGLB (jsonBytes binBytes : List Nat) (images : List (List Nat)) : List Nat :=
  let jsonLength := jsonBytes.length
  let imageByteLength := (images.map List.length).sum
  let jsonPadding := getPadding jsonLength
  let binPadding := getPadding binBytes.length
  let imagePadding := getPadding imageByteLength
  u32LE 0x46546C67 ++ u32LE 2 ++ u32LE (glbByteLength jsonBytes binBytes images) ++
    u32LE (jsonLength + jsonPadding) ++ u32LE 0x4E4F534A ++
    jsonBytes ++ List.replicate jsonPadding 0x20 ++
    u32LE (binBytes.length + imageByteLength + imagePadding) ++ u32LE 0x004E4942 ++
    binBytes ++ images.flatten ++
    List.replicate binPadding 0 ++ List.replicate imagePadding 0

/-- JavaScript truthiness of an optional string argument: `undefined` and the
empty string are falsy. -/
def jsTruthyStr (s : Option String) : Bool :=
  match s with
  | none => false
  | some str => str ≠ ""

/-- JavaScript truthiness of an optional number argument: `undefined` and `0`
are falsy. -/
def jsTruthyNum (n : Option Nat) : Bool :=
  match n with
  | none => false
  | some v => v ≠ 0

/-- The glTF buffer-view JSON object built by `createBufferView`; `none`
fields are omitted from the serialized JSON. -/
structure IBufferView where
  buffer : Nat
  byteLength : Nat
  byteOffset : Option Nat := none
  name : Option String := none
  byteStride : Option Nat := none
deriving DecidableEq

/-- Embedding of `createBufferView` (glTFUtilities): starts from
`{ buffer, byteLength }` and conditionally attaches `byteOffset`, `name` and
`byteStride` under JavaScript truthiness tests (`if (byteOffset)`,
`if (name)`, `if (byteStride)`). -/
def createBufferView (bufferIndex byteOffset byteLength : Nat)
    (byteStride : Option Nat) (name : Option String) : IBufferView :=
  let bufferview : IBufferView := { buffer := bufferIndex, byteLength := byteLength }
  let bufferview := if byteOffset ≠ 0 then { bufferview with byteOffset := some byteOffset }
    else bufferview
  let bufferview := if jsTruthyStr name then { bufferview with name := name } else bufferview
  if jsTruthyNum byteStride then { bufferview with byteStride := byteStride } else bufferview

/-- Accessor element shapes (`AccessorType` of babylonjs-gltf2interface). -/
inductive AccessorType where
  | SCALAR | VEC2 | VEC3 | VEC4 | MAT2 | MAT3 | MAT4
deriving DecidableEq

/-- The glTF accessor JSON object built by `createAccessor`; `none` fields
are omitted.  Component values are modelled as rationals. -/
structure IAccessor where
  bufferView : Nat
  componentType : Nat
  count : Nat
  type : AccessorType
  min : Option (List ℚ) := none
  max : Option (List ℚ) := none
  byteOffset : Option Nat := none
deriving DecidableEq

/-- Embedding of `createAccessor` (glTFUtilities): starts from
`{ bufferView, componentType, count, type }` and attaches `min`, `max`,
`byteOffset` under `!= null` tests (so an explicit `0` byte offset is
attached). -/
def createAccessor (bufferViewIndex : Nat) (type : AccessorType) (componentType count : Nat)
    (byteOffset : Option Nat) (min max : Option (List ℚ)) : IAccessor :=
  let accessor : IAccessor :=
    { bufferView := bufferViewIndex, componentType := componentType, count := count, type := type }
  let accessor := match min with
    | some m => { accessor with min := some m }
    | none => accessor
  let accessor := match max with
    | some m => { accessor with max := some m }
    | none => accessor
  match byteOffset with
  | some o => { accessor with byteOffset := some o }
  | none => accessor

/-- State of the `min`/`max` arrays in `calculateMinMaxPositions`: float
values are modelled as rationals, the `Infinity` initializer of `min` as `⊤`
in `WithTop ℚ` and the `-Infinity` initializer of `max` as `⊥` in
`WithBot ℚ`. -/
abbrev MMState := List (WithTop ℚ) × List (WithBot ℚ)

/-- One `if (num < min[j]) { min[j] = num; }` update. -/
def mmUpdateMin (num : ℚ) (mn : WithTop ℚ) : WithTop ℚ :=
  if (num : WithTop ℚ) < mn then (num : WithTop ℚ) else mn

/-- One `if (num > max[j]) { max[j] = num; }` update. -/
def mmUpdateMax (num : ℚ) (mx : WithBot ℚ) : WithBot ℚ :=
  if mx < (num : WithBot ℚ) then (num : WithBot ℚ) else mx

/-- One iteration of the outer `i` loop of `calculateMinMaxPositions`:
read the 3-component vector at `indexOffset = 3 * i` and run the inner
`j` loop of comparisons against `min[j]` and `max[j]`. -/
def processVertex (positions : List ℚ) (i : Nat) (s : MMState) : MMState :=
  let vector := [positions.getD (3 * i) 0, positions.getD (3 * i + 1) 0,
    positions.getD (3 * i + 2) 0]
  (List.zipWith mmUpdateMin vector s.1, List.zipWith mmUpdateMax vector s.2)

/-- The `for (let i = vertexStart; i < vertexStart + vertexCount; ++i)` loop,
by recursion on the remaining iteration count. -/
def mmLoop (positions : List ℚ) : Nat → Nat → MMState → MMState
  | _, 0, s => s
  | i, n + 1, s => mmLoop positions (i + 1) n (processVertex positions i s)

/-- Embedding of `calculateMinMaxPositions` (glTFUtilities): `min` starts as
`[Infinity, Infinity, Infinity]`, `max` as `[-Infinity, -Infinity, -Infinity]`,
and the scan loop runs only under `if (vertexCount)` (so a zero count returns
the sentinels unchanged). -/
def calculateMinMaxPositions (positions : List ℚ) (vertexStart vertexCount : Nat) : MMState :=
  let init : MMState := ([⊤, ⊤, ⊤], [⊥, ⊥, ⊥])
  if vertexCount ≠ 0 then mmLoop positions vertexStart vertexCount init else init

/-- Left fold of the `min` update over a component run (proof vehicle for
relating the scan loop to `List.minimum`). -/
def foldlMin (init : WithTop ℚ) (l : List ℚ) : WithTop ℚ :=
  l.foldl (fun acc num => mmUpdateMin num acc) init

/-- Left fold of the `max` update over a component run. -/
def foldlMax (init : WithBot ℚ) (l : List ℚ) : WithBot ℚ :=
  l.foldl (fun acc num => mmUpdateMax num acc) init

/-- The `j`-th components of the vertices in `[start, start + count)`: the
values at flat indices `3 * i + j` for `i` in that range. -/
def componentRun (positions : List ℚ) (j start count : Nat) : List ℚ :=
  (List.range' start count).map fun i => positions.getD (3 * i + j) 0

/-- Modelled from the spec: the attribute-kind string constants of the
external `VertexBuffer` class (`core/Buffers/buffer.ts`, not under `src/`);
the fixed enumerated set is position, normal, tangent, color, UV channels
0-5, joint indices ×2, joint weights ×2, with Babylon.js's published kind
strings. -/
def PositionKind : String := "position"

/-- Modelled from the spec: `VertexBuffer.NormalKind`. -/
def NormalKind : String := "normal"

/-- Modelled from the spec: `VertexBuffer.TangentKind`. -/
def TangentKind : String := "tangent"

/-- Modelled from the spec: `VertexBuffer.ColorKind`. -/
def ColorKind : String := "color"

/-- Modelled from the spec: `VertexBuffer.UVKind`. -/
def UVKind : String := "uv"

/-- Modelled from the spec: `VertexBuffer.UV2Kind`. -/
def UV2Kind : String := "uv2"

/-- Modelled from the spec: `VertexBuffer.UV3Kind`. -/
def UV3Kind : String := "uv3"

/-- Modelled from the spec: `VertexBuffer.UV4Kind`. -/
def UV4Kind : String := "uv4"

/-- Modelled from the spec: `VertexBuffer.UV5Kind`. -/
def UV5Kind : String := "uv5"

/-- Modelled from the spec: `VertexBuffer.UV6Kind`. -/
def UV6Kind : String := "uv6"

/-- Modelled from the spec: `VertexBuffer.MatricesIndicesKind`. -/
def MatricesIndicesKind : String := "matricesIndices"

/-- Modelled from the spec: `VertexBuffer.MatricesIndicesExtraKind`. -/
def MatricesIndicesExtraKind : String := "matricesIndicesExtra"

/-- Modelled from the spec: `VertexBuffer.MatricesWeightsKind`. -/
def MatricesWeightsKind : String := "matricesWeights"

/-- Modelled from the spec: `VertexBuffer.MatricesWeightsExtraKind`. -/
def MatricesWeightsExtraKind : String := "matricesWeightsExtra"

/-- The fixed enumerated set of attribute kinds handled by the mappings. -/
def knownKinds : List String :=
  [PositionKind, NormalKind, ColorKind, TangentKind, MatricesIndicesKind,
    MatricesIndicesExtraKind, MatricesWeightsKind, MatricesWeightsExtraKind,
    UVKind, UV2Kind, UV3Kind, UV4Kind, UV5Kind, UV6Kind]

/-- Embedding of `getAccessorType` (glTFUtilities): the `switch` over the
attribute kind; the trailing `throw new Error` is modelled as `none`. -/
def getAccessorType (kind : String) : Option AccessorType :=
  if kind = PositionKind then some AccessorType.VEC3
  else if kind = NormalKind then some AccessorType.VEC3
  else if kind = ColorKind then some AccessorType.VEC4
  else if kind = TangentKind then some AccessorType.VEC4
  else if kind = MatricesIndicesKind then some AccessorType.VEC4
  else if kind = MatricesIndicesExtraKind then some AccessorType.VEC4
  else if kind = MatricesWeightsKind then some AccessorType.VEC4
  else if kind = MatricesWeightsExtraKind then some AccessorType.VEC4
  else if kind = UVKind then some AccessorType.VEC2
  else if kind = UV2Kind then some AccessorType.VEC2
  else if kind = UV3Kind then some AccessorType.VEC2
  else if kind = UV4Kind then some AccessorType.VEC2
  else if kind = UV5Kind then some AccessorType.VEC2
  else if kind = UV6Kind then some AccessorType.VEC2
  else none

/-- Embedding of `getAttributeType` (glTFUtilities): attribute kind to glTF
semantic name; the trailing `throw new Error` is modelled as `none`. -/
def getAttributeType (kind : String) : Option String :=
  if kind = PositionKind then some "POSITION"
  else if kind = NormalKind then some "NORMAL"
  else if kind = TangentKind then some "TANGENT"
  else if kind = ColorKind then some "COLOR_0"
  else if kind = UVKind then some "TEXCOORD_0"
  else if kind = UV2Kind then some "TEXCOORD_1"
  else if kind = UV3Kind then some "TEXCOORD_2"
  else if kind = UV4Kind then some "TEXCOORD_3"
  else if kind = UV5Kind then some "TEXCOORD_4"
  else if kind = UV6Kind then some "TEXCOORD_5"
  else if kind = MatricesIndicesKind then some "JOINTS_0"
  else if kind = MatricesIndicesExtraKind then some "JOINTS_1"
  else if kind = MatricesWeightsKind then some "WEIGHTS_0"
  else if kind = MatricesWeightsExtraKind then some "WEIGHTS_1"
  else none

/-- Modelled from the spec: the fill-mode constants of the external
`Material` class (`core/Materials/material.ts`, not under `src/`), with
Babylon.js's published values.  `WireFrameFillMode = 1` is the one fill mode
not handled by `getPrimitiveMode`. -/
def TriangleFillMode : Nat := 0

/-- Modelled from the spec: `Material.WireFrameFillMode`. -/
def WireFrameFillMode : Nat := 1

/-- Modelled from the spec: `Material.PointFillMode`. -/
def PointFillMode : Nat := 2

/-- Modelled from the spec: `Material.PointListDrawMode`. -/
def PointListDrawMode : Nat := 3

/-- Modelled from the spec: `Material.LineListDrawMode`. -/
def LineListDrawMode : Nat := 4

/-- Modelled from the spec: `Material.LineLoopDrawMode`. -/
def LineLoopDrawMode : Nat := 5

/-- Modelled from the spec: `Material.LineStripDrawMode`. -/
def LineStripDrawMode : Nat := 6

/-- Modelled from the spec: `Material.TriangleStripDrawMode`. -/
def TriangleStripDrawMode : Nat := 7

/-- Modelled from the spec: `Material.TriangleFanDrawMode`. -/
def TriangleFanDrawMode : Nat := 8

/-- glTF mesh primitive topologies (`MeshPrimitiveMode` of
babylonjs-gltf2interface, the standard glTF values). -/
inductive MeshPrimitiveMode where
  | POINTS | LINES | LINE_LOOP | LINE_STRIP | TRIANGLES | TRIANGLE_STRIP | TRIANGLE_FAN
deriving DecidableEq

/-- The fill modes that `getPrimitiveMode` recognizes (the `case` labels of
its `switch`, in source order). -/
def recognizedFillModes : List Nat :=
  [TriangleFillMode, TriangleStripDrawMode, TriangleFanDrawMode, PointListDrawMode,
    PointFillMode, LineLoopDrawMode, LineListDrawMode, LineStripDrawMode]

/-- Embedding of `getPrimitiveMode` (glTFUtilities): the `switch` over the
fill mode; the trailing `throw new Error` is modelled as `none`. -/
def getPrimitiveMode (fillMode : Nat) : Option MeshPrimitiveMode :=
  if fillMode = TriangleFillMode then some MeshPrimitiveMode.TRIANGLES
  else if fillMode = TriangleStripDrawMode then some MeshPrimitiveMode.TRIANGLE_STRIP
  else if fillMode = TriangleFanDrawMode then some MeshPrimitiveMode.TRIANGLE_FAN
  else if fillMode = PointListDrawMode then some MeshPrimitiveMode.POINTS
  else if fillMode = PointFillMode then some MeshPrimitiveMode.POINTS
  else if fillMode = LineLoopDrawMode then some MeshPrimitiveMode.LINE_LOOP
  else if fillMode = LineListDrawMode then some MeshPrimitiveMode.LINES
  else if fillMode = LineStripDrawMode then some MeshPrimitiveMode.LINE_STRIP
  else none

/-- A 4x4 matrix in Babylon's row-major layout, entry `(r, c)` at `4 * r + c`;
float entries are modelled as rationals. -/
abbrev Mat4 := List ℚ

/-- The identity matrix. -/
def identityMatrix : Mat4 :=
  [1, 0, 0, 0, 0, 1, 0, 0, 0, 0, 1, 0, 0, 0, 0, 1]

/-- `Matrix.Compose(new Vector3(-1, 1, 1), Quaternion.Identity(), Vector3.Zero())`:
a pure scale by `(-1, 1, 1)`, i.e. the identity with entry `(0, 0)` negated. -/
def convertHandednessMatrix : Mat4 :=
  [-1, 0, 0, 0, 0, 1, 0, 0, 0, 0, 1, 0, 0, 0, 0, 1]

/-- Row-major 4x4 matrix product, as computed by `Matrix.multiplyToRef`. -/
def matMul (a b : Mat4) : Mat4 :=
  (List.range 16).map fun idx =>
    let r := idx / 4
    let c := idx % 4
    ((List.range 4).map fun k => a.getD (4 * r + k) 0 * b.getD (4 * k + c) 0).sum

/-- `Matrix.isIdentity`: entry-wise comparison against the identity. -/
def matIsIdentity (m : Mat4) : Bool :=
  m == identityMatrix

/-- Classification of a scene node for the pruning step: `transform` is a
plain `TransformNode`; `mesh`/`instanced` are the `Mesh`/`InstancedMesh`
subclasses with their (source) geometry presence; `other` covers nodes that
are not `TransformNode` instances (lights, cameras). -/
inductive NodeClass where
  | transform
  | mesh (hasGeometry : Bool)
  | instanced (sourceHasGeometry : Bool)
  | other
deriving DecidableEq

/-- A scene node as the pruning step sees it: an identity handle, its class,
its accumulated world matrix and the identity handles of all of its
descendants (`getDescendants()`). -/
structure BNode where
  id : Nat
  cls : NodeClass
  worldMatrix : Mat4
  descendants : List Nat
deriving DecidableEq

/-- The geometry test of `isNoopNode`:
`(node instanceof Mesh && node.geometry) ||`
`(node instanceof InstancedMesh && node.sourceMesh.geometry)`. -/
def ownsRenderableGeometry (node : BNode) : Bool :=
  match node.cls with
  | NodeClass.mesh hasGeometry => hasGeometry
  | NodeClass.instanced sourceHasGeometry => sourceHasGeometry
  | _ => false

/-- Embedding of `isNoopNode` (glTFExporter.ts): not a `TransformNode` →
false; world transform (composed with the handedness-conversion matrix when
the scene is left-handed) not identity → false; renderable geometry → false;
otherwise true. -/
def isNoopNode (node : BNode) (useRightHandedSystem : Bool) : Bool :=
  if node.cls = NodeClass.other then false
  else if useRightHandedSystem && !matIsIdentity node.worldMatrix then false
  else if !useRightHandedSystem &&
      !matIsIdentity (matMul node.worldMatrix convertHandednessMatrix) then false
  else if ownsRenderableGeometry node then false
  else true

/-- `Array.prototype.indexOf`: first index of the element, `-1` if absent. -/
def jsIndexOf (l : List BNode) (node : BNode) : Int :=
  match l.findIdx? (fun x => x == node) with
  | some i => (i : Int)
  | none => -1

/-- `Array.prototype.splice(start, 1)`: a negative `start` counts back from
the end (clamped at 0), then one element is removed at that position. -/
def jsSpliceRemoveOne (l : List BNode) (start : Int) : List BNode :=
  let actualStart : Nat := if start < 0 then (l.length + start).toNat else min start.toNat l.length
  l.take actualStart ++ l.drop (actualStart + 1)

/-- The options consulted by the pruning step of `_exportSceneAsync`. -/
structure PruneOptions where
  removeNoopRootNodes : Option Bool := none
  includeCoordinateSystemConversionNodes : Bool := false

/--
Embedding of the "Remove no-op root nodes" block of
`GLTFExporter._exportSceneAsync`.  Inputs: the options, the scene's
handedness, `scene.rootNodes`, the already-filtered export list `nodes` and
the conversion set `_nodesToConvertToRightHanded` (a list of node ids).
For each root passing `isNoopNode` the code runs
`nodes.splice(nodes.indexOf(rootNode), 1)` and, when the scene is
left-handed, deletes the root and each of its descendants from the
conversion set.  Returns the updated export list, the updated conversion set
and the ids accumulated in `removedRootNodes`.
-/
def pruneNoopRootNodes (options : PruneOptions) (useRightHandedSystem : Bool)
    (rootNodes nodes : List BNode) (convSet : List Nat) :
    List BNode × List Nat × List Nat :=
  if (options.removeNoopRootNodes.getD true) && !options.includeCoordinateSystemConversionNodes then
    rootNodes.foldl
      (fun (acc : List BNode × List Nat × List Nat) rootNode =>
        if isNoopNode rootNode useRightHandedSystem then
          let nodes := jsSpliceRemoveOne acc.1 (jsIndexOf acc.1 rootNode)
          let convSet :=
            if !useRightHandedSystem then
              acc.2.1.filter fun x => x != rootNode.id && !(rootNode.descendants.contains x)
            else acc.2.1
          (nodes, convSet, acc.2.2 ++ [rootNode.id])
        else acc)
      (nodes, convSet, [])
  else (nodes, convSet, [])

/-- Embedding of `GLTFExporter._applyExtension`: each extension hook takes
the carried artifact (`Nullable<T>`, modelled as `Option α`) and either
declines (`undefined`, the outer `none`) or produces a replacement artifact;
the recursion visits `extensions[index]`, `extensions[index + 1]`, ... in
order. -/
def applyExtension {α : Type} (node : Option α)
    (extensions : List (Option α → Option (Option α))) : Option α :=
  match extensions with
  | [] => node
  | ext :: rest =>
    match ext node with
    | none => applyExtension node rest
    | some newNode => applyExtension newNode rest

/-- Restatement of the spec's words for the extension pipeline: an ordered
fold over the extension list in which each step either replaces the carried
artifact or leaves it unchanged. -/
def applyExtensionsFoldSpec {α : Type} (node : Option α)
    (extensions : List (Option α → Option (Option α))) : Option α :=
  extensions.foldl
    (fun value ext =>
      match ext value with
      | none => value
      | some newValue => newValue)
    node

end GLTF

namespace GLTF

/-- C5: for every chunk length `L`, the padding `P` computed by `_getPadding`
satisfies `(L + P) % 4 = 0`, `P ≤ 3`, and `P = (4 - L % 4) % 4`. -/
theorem getPadding_spec (L : Nat) :
    (L + getPadding L) % 4 = 0 ∧ getPadding L ≤ 3 ∧ getPadding L = (4 - L % 4) % 4 := by
  unfold getPadding
  simp only []
  split <;> omega

/-- C1: demonstration of the accessor-cache defect at a concrete input.
Starting from a fresh state, `setIndicesAccessor` (resp.
`setAttributeAccessor`) stores an index for key `(7, 0, 3)`, yet the
subsequent `get` returns nothing (the fresh nested maps created by `??` are
never linked into the parent map); consequently running the
`_exportMeshAsync` indices-accessor step twice for the same submesh range
returns accessor index `0` the first time and a freshly allocated accessor
index `1` the second time, growing `_accessors` to length 2. -/
theorem indicesAccessorCache_lost :
    getIndicesAccessor (setIndicesAccessor ExporterState.empty 7 0 3 5) 7 0 3 = none ∧
    getAttributeAccessor (setAttributeAccessor ExporterState.empty 7 0 3 5) 7 0 3 = none ∧
    (exportIndicesAccessorStep ExporterState.empty 0 7 0 3).1 = 0 ∧
    (exportIndicesAccessorStep
        (exportIndicesAccessorStep ExporterState.empty 0 7 0 3).2.1
        (exportIndicesAccessorStep ExporterState.empty 0 7 0 3).2.2 7 0 3).1 = 1 ∧
    (exportIndicesAccessorStep
        (exportIndicesAccessorStep ExporterState.empty 0 7 0 3).2.1
        (exportIndicesAccessorStep ExporterState.empty 0 7 0 3).2.2 7 0 3).2.2 = 2 := by
  decide

/-- C2: demonstration of the mesh-cache defect at a concrete input.  A state
whose mesh map sends source mesh `42` to output mesh index `0` (`_meshes`
has length 1): the node-export mesh resolution uses `getMesh(...) || export`,
and since the cached index `0` is falsy it re-exports, assigning the fresh
index `1` and growing `_meshes` to length 2 instead of reusing the cached
index. -/
theorem meshCacheZeroIndex_reexports :
    getMesh (setMesh ExporterState.empty 42 0) 42 = some 0 ∧
    (resolveNodeMesh (setMesh ExporterState.empty 42 0) 1 42).1 = 1 ∧
    (resolveNodeMesh (setMesh ExporterState.empty 42 0) 1 42).2.2 = 2 := by
  decide

/-- Decoding the four bytes written by `setUint32` recovers the value modulo
`2 ^ 32`. -/
theorem decodeU32_u32LE (v : Nat) : decodeU32 (u32LE v) = v % 4294967296 := by
  simp only [decodeU32, u32LE, List.getD_cons_zero, List.getD_cons_succ]
  omega

/-- The GLB output length equals the `byteLength` total computed in
`generateGLBAsync`. -/
theorem length_generateGLB (jsonBytes binBytes : List Nat) (images : List (List Nat)) :
    (generateGLB jsonBytes binBytes images).length = glbByteLength jsonBytes binBytes images := by
  simp [generateGLB, glbByteLength, u32LE, List.length_append, List.length_replicate,
    List.length_flatten]
  omega

/-- The first three 4-byte groups of the GLB output are the encoded magic,
version and total length. -/
theorem generateGLB_header_bytes (jsonBytes binBytes : List Nat) (images : List (List Nat)) :
    (generateGLB jsonBytes binBytes images).take 4 = u32LE 0x46546C67 ∧
    ((generateGLB jsonBytes binBytes images).drop 4).take 4 = u32LE 2 ∧
    ((generateGLB jsonBytes binBytes images).drop 8).take 4
      = u32LE (glbByteLength jsonBytes binBytes images) := by
  refine ⟨?_, ?_, ?_⟩ <;>
    simp [generateGLB, u32LE, List.take_succ_cons, List.drop_succ_cons]

/-- C4: in every GLB file assembled by `generateGLBAsync`, bytes 0-3 decode
little-endian to the magic `0x46546C67`, bytes 4-7 to the version `2`, and
bytes 8-11 to the total byte length of the whole file, which is the sum of
the lengths of all written segments (header, both chunk prefixes, JSON text
plus padding, geometry bytes plus padding, image bytes plus padding). -/
theorem glbHeader_spec (jsonBytes binBytes : List Nat) (images : List (List Nat))
    (h : glbByteLength jsonBytes binBytes images < 4294967296) :
    decodeU32 ((generateGLB jsonBytes binBytes images).take 4) = 0x46546C67 ∧
    decodeU32 (((generateGLB jsonBytes binBytes images).drop 4).take 4) = 2 ∧
    decodeU32 (((generateGLB jsonBytes binBytes images).drop 8).take 4)
      = (generateGLB jsonBytes binBytes images).length ∧
    (generateGLB jsonBytes binBytes images).length
      = glbByteLength jsonBytes binBytes images := by
  obtain ⟨h1, h2, h3⟩ := generateGLB_header_bytes jsonBytes binBytes images
  refine ⟨?_, ?_, ?_, length_generateGLB jsonBytes binBytes images⟩
  · rw [h1, decodeU32_u32LE]
  · rw [h2, decodeU32_u32LE]
  · rw [h3, decodeU32_u32LE, length_generateGLB jsonBytes binBytes images]
    omega

/-- C4 witness: the header theorem applied at a concrete GLB (4 JSON bytes,
6 geometry bytes, no images). -/
theorem glbHeader_spec_witness :
    glbByteLength [123, 125, 32, 32] [1, 2, 3, 4, 5, 6] [] < 4294967296 ∧
    (decodeU32 ((generateGLB [123, 125, 32, 32] [1, 2, 3, 4, 5, 6] []).take 4) = 0x46546C67 ∧
      decodeU32 (((generateGLB [123, 125, 32, 32] [1, 2, 3, 4, 5, 6] []).drop 4).take 4) = 2 ∧
      decodeU32 (((generateGLB [123, 125, 32, 32] [1, 2, 3, 4, 5, 6] []).drop 8).take 4)
        = (generateGLB [123, 125, 32, 32] [1, 2, 3, 4, 5, 6] []).length ∧
      (generateGLB [123, 125, 32, 32] [1, 2, 3, 4, 5, 6] []).length
        = glbByteLength [123, 125, 32, 32] [1, 2, 3, 4, 5, 6] []) :=
  ⟨by decide, glbHeader_spec [123, 125, 32, 32] [1, 2, 3, 4, 5, 6] [] (by decide)⟩

/-- C3: demonstration of the binary-chunk framing defect at a concrete
input: 4 JSON bytes, 6 geometry bytes, no images.  The binary chunk's length
prefix (file bytes 24-27) declares `6` content bytes
(`binaryBuffer.byteLength + imageByteLength + imagePadding`), but 8 bytes
follow the prefix in the file: the `binPaddingBuffer` zeros are pushed after
the image data and are not counted, leaving 2 zero bytes beyond the declared
content. -/
theorem glbBinaryChunk_mismatch :
    decodeU32 (((generateGLB [123, 125, 32, 32] [1, 2, 3, 4, 5, 6] []).drop 24).take 4) = 6 ∧
    ((generateGLB [123, 125, 32, 32] [1, 2, 3, 4, 5, 6] []).drop 32).length = 8 ∧
    (generateGLB [123, 125, 32, 32] [1, 2, 3, 4, 5, 6] []).drop 38 = [0, 0] := by
  decide

/-- C6: demonstration of the pruning defect at a concrete input.  The scene
is right-handed; its single root is a no-op transform node (identity world
matrix, no geometry) that was excluded from the export list by the
node-inclusion predicate, while the export list holds one unrelated mesh
node that is not a no-op root.  `nodes.indexOf(rootNode)` returns `-1`, so
`nodes.splice(-1, 1)` removes the unrelated last node and the resulting
export list is empty. -/
theorem pruneNoopRootNodes_removes_unrelated :
    isNoopNode ⟨0, NodeClass.transform, identityMatrix, []⟩ true = true ∧
    isNoopNode ⟨1, NodeClass.mesh true, identityMatrix, []⟩ true = false ∧
    pruneNoopRootNodes ⟨none, false⟩ true
        [⟨0, NodeClass.transform, identityMatrix, []⟩]
        [⟨1, NodeClass.mesh true, identityMatrix, []⟩] []
      = ([], [], [0]) := by
  decide

/-- C8 counterexample: the claim states that `createBufferView` omits `name`
exactly when it is absent, but for the present (non-absent) empty-string
name the field is omitted as well (`if (name)` is a JavaScript truthiness
test and `""` is falsy). -/
theorem createBufferView_emptyName_counterexample :
    ¬ ((createBufferView 0 0 4 none (some "")).name = none ↔ (some "" : Option String) = none) := by
  decide

/-- C8 (amended): `createBufferView` omits `byteOffset` exactly when it is
zero, omits `byteStride` exactly when it is zero or absent, and omits `name`
exactly when it is absent or the empty string; `createAccessor` carries
`byteOffset`, `min` and `max` through unchanged, so each is included exactly
when non-null (an explicit zero byte offset included). -/
theorem createBufferView_createAccessor_fieldRules (bufferIndex byteOffset byteLength : Nat)
    (byteStride : Option Nat) (name : Option String) (bufferViewIndex : Nat)
    (type : AccessorType) (componentType count : Nat) (accByteOffset : Option Nat)
    (mn mx : Option (List ℚ)) :
    ((createBufferView bufferIndex byteOffset byteLength byteStride name).byteOffset = none
        ↔ byteOffset = 0) ∧
    ((createBufferView bufferIndex byteOffset byteLength byteStride name).byteStride = none
        ↔ byteStride = none ∨ byteStride = some 0) ∧
    ((createBufferView bufferIndex byteOffset byteLength byteStride name).name = none
        ↔ name = none ∨ name = some "") ∧
    (createAccessor bufferViewIndex type componentType count accByteOffset mn mx).byteOffset
        = accByteOffset ∧
    (createAccessor bufferViewIndex type componentType count accByteOffset mn mx).min = mn ∧
    (createAccessor bufferViewIndex type componentType count accByteOffset mn mx).max = mx := by
  refine ⟨?_, ?_, ?_, ?_, ?_, ?_⟩
  · cases byteStride <;> cases name <;>
      simp [createBufferView, jsTruthyStr, jsTruthyNum] <;> split_ifs <;> simp_all
  · cases byteStride <;> cases name <;>
      simp [createBufferView, jsTruthyStr, jsTruthyNum] <;> split_ifs <;> simp_all
  · cases byteStride <;> cases name <;>
      simp [createBufferView, jsTruthyStr, jsTruthyNum] <;> split_ifs <;> simp_all
  · cases accByteOffset <;> cases mn <;> cases mx <;> simp [createAccessor]
  · cases accByteOffset <;> cases mn <;> cases mx <;> simp [createAccessor]
  · cases accByteOffset <;> cases mn <;> cases mx <;> simp [createAccessor]

/-- The `min` update is the lattice `min` with the new value. -/
theorem mmUpdateMin_eq (num : ℚ) (mn : WithTop ℚ) : mmUpdateMin num mn = min ↑num mn := by
  unfold mmUpdateMin
  split
  · exact (min_eq_left (le_of_lt (by assumption))).symm
  · exact (min_eq_right (le_of_not_lt (by assumption))).symm

/-- The `max` update is the lattice `max` with the new value. -/
theorem mmUpdateMax_eq (num : ℚ) (mx : WithBot ℚ) : mmUpdateMax num mx = max ↑num mx := by
  unfold mmUpdateMax
  split
  · exact (max_eq_left (le_of_lt (by assumption))).symm
  · exact (max_eq_right (le_of_not_lt (by assumption))).symm

/-- Unfolding step of `foldlMin`. -/
theorem foldlMin_cons (init : WithTop ℚ) (v : ℚ) (l : List ℚ) :
    foldlMin init (v :: l) = foldlMin (mmUpdateMin v init) l := rfl

/-- Unfolding step of `foldlMax`. -/
theorem foldlMax_cons (init : WithBot ℚ) (v : ℚ) (l : List ℚ) :
    foldlMax init (v :: l) = foldlMax (mmUpdateMax v init) l := rfl

/-- The fold of `min` updates computes the minimum of the list, capped by the
initial accumulator. -/
theorem foldlMin_eq_min (l : List ℚ) : ∀ init : WithTop ℚ, foldlMin init l = min init l.minimum := by
  induction l with
  | nil =>
    intro init
    simp [foldlMin, List.minimum_nil]
  | cons v tl ih =>
    intro init
    rw [foldlMin_cons, mmUpdateMin_eq, ih, List.minimum_cons, min_comm (↑v) init, min_assoc]

/-- The fold of `max` updates computes the maximum of the list, floored by
the initial accumulator. -/
theorem foldlMax_eq_max (l : List ℚ) : ∀ init : WithBot ℚ, foldlMax init l = max init l.maximum := by
  induction l with
  | nil =>
    intro init
    simp [foldlMax, List.maximum_nil]
  | cons v tl ih =>
    intro init
    rw [foldlMax_cons, mmUpdateMax_eq, ih, List.maximum_cons, max_comm (↑v) init, max_assoc]

/-- Head-step of a component run. -/
theorem componentRun_succ (positions : List ℚ) (j start count : Nat) :
    componentRun positions j start (count + 1)
      = positions.getD (3 * start + j) 0 :: componentRun positions j (start + 1) count := by
  simp [componentRun, List.range'_succ]

/-- The scan loop of `calculateMinMaxPositions` computes, in each of the
three slots, the fold of `min`/`max` updates over that slot's component
run. -/
theorem mmLoop_eq (positions : List ℚ) :
    ∀ (count start : Nat) (a b c : WithTop ℚ) (A B C : WithBot ℚ),
    mmLoop positions start count ([a, b, c], [A, B, C])
      = ([foldlMin a (componentRun positions 0 start count),
          foldlMin b (componentRun positions 1 start count),
          foldlMin c (componentRun positions 2 start count)],
         [foldlMax A (componentRun positions 0 start count),
          foldlMax B (componentRun positions 1 start count),
          foldlMax C (componentRun positions 2 start count)]) := by
  intro count
  induction count with
  | zero =>
    intro start a b c A B C
    simp [mmLoop, componentRun, foldlMin, foldlMax]
  | succ n ih =>
    intro start a b c A B C
    rw [show mmLoop positions start (n + 1) ([a, b, c], [A, B, C])
        = mmLoop positions (start + 1) n (processVertex positions start ([a, b, c], [A, B, C]))
      from rfl]
    simp only [processVertex, List.zipWith]
    rw [ih]
    simp only [componentRun_succ, foldlMin_cons, foldlMax_cons, Nat.add_zero]

/-- C7: `calculateMinMaxPositions` returns exactly the component-wise
minimum and maximum (as `List.minimum`/`List.maximum`) of the three
component runs of the vertex range `[vertexStart, vertexStart + vertexCount)`,
and the result is the `[+Inf, +Inf, +Inf]`/`[-Inf, -Inf, -Inf]` sentinel
pair if and only if `vertexCount = 0`. -/
theorem calculateMinMaxPositions_spec (positions : List ℚ) (vertexStart vertexCount : Nat)
    (h : 3 * (vertexStart + vertexCount) ≤ positions.length) :
    (calculateMinMaxPositions positions vertexStart vertexCount).1
      = [(componentRun positions 0 vertexStart vertexCount).minimum,
         (componentRun positions 1 vertexStart vertexCount).minimum,
         (componentRun positions 2 vertexStart vertexCount).minimum] ∧
    (calculateMinMaxPositions positions vertexStart vertexCount).2
      = [(componentRun positions 0 vertexStart vertexCount).maximum,
         (componentRun positions 1 vertexStart vertexCount).maximum,
         (componentRun positions 2 vertexStart vertexCount).maximum] ∧
    (calculateMinMaxPositions positions vertexStart vertexCount
        = (([⊤, ⊤, ⊤], [⊥, ⊥, ⊥]) : MMState) ↔ vertexCount = 0) := by
  by_cases hc : vertexCount = 0
  · subst hc
    simp [calculateMinMaxPositions, componentRun, List.minimum_nil, List.maximum_nil]
  · have hrun : ∀ j : Nat, (componentRun positions j vertexStart vertexCount).length ≠ 0 := by
      intro j
      simp [componentRun, List.length_range']
      exact hc
    have hmain : calculateMinMaxPositions positions vertexStart vertexCount
        = ([(componentRun positions 0 vertexStart vertexCount).minimum,
            (componentRun positions 1 vertexStart vertexCount).minimum,
            (componentRun positions 2 vertexStart vertexCount).minimum],
           [(componentRun positions 0 vertexStart vertexCount).maximum,
            (componentRun positions 1 vertexStart vertexCount).maximum,
            (componentRun positions 2 vertexStart vertexCount).maximum]) := by
      unfold calculateMinMaxPositions
      rw [if_pos hc, mmLoop_eq]
      simp [foldlMin_eq_min, foldlMax_eq_max, min_eq_right (le_top : _ ≤ (⊤ : WithTop ℚ)),
        max_eq_right (bot_le : (⊥ : WithBot ℚ) ≤ _)]
    refine ⟨by rw [hmain], by rw [hmain], ?_⟩
    rw [hmain]
    constructor
    · intro heq
      exfalso
      have h0 : (componentRun positions 0 vertexStart vertexCount).minimum = ⊤ := by
        have := congrArg (fun p : MMState => p.1.getD 0 ⊤) heq
        simpa using this
      have := List.minimum_eq_top.mp h0
      exact hrun 0 (by rw [this]; rfl)
    · intro heq
      exact absurd heq hc

/-- C7 witness: the bounds theorem applied at a concrete positions array
(two vertices starting at vertex 0). -/
theorem calculateMinMaxPositions_spec_witness :
    3 * (0 + 2) ≤ ([1, 2, 3, 4, 0, 6] : List ℚ).length ∧
    ((calculateMinMaxPositions [1, 2, 3, 4, 0, 6] 0 2).1
        = [(componentRun [1, 2, 3, 4, 0, 6] 0 0 2).minimum,
           (componentRun [1, 2, 3, 4, 0, 6] 1 0 2).minimum,
           (componentRun [1, 2, 3, 4, 0, 6] 2 0 2).minimum] ∧
      (calculateMinMaxPositions [1, 2, 3, 4, 0, 6] 0 2).2
        = [(componentRun [1, 2, 3, 4, 0, 6] 0 0 2).maximum,
           (componentRun [1, 2, 3, 4, 0, 6] 1 0 2).maximum,
           (componentRun [1, 2, 3, 4, 0, 6] 2 0 2).maximum] ∧
      (calculateMinMaxPositions [1, 2, 3, 4, 0, 6] 0 2 = (([⊤, ⊤, ⊤], [⊥, ⊥, ⊥]) : MMState)
          ↔ (2 : Nat) = 0)) :=
  ⟨by decide, calculateMinMaxPositions_spec [1, 2, 3, 4, 0, 6] 0 2 (by decide)⟩

/-- C9: `getAccessorType` and `getAttributeType` succeed exactly on the
fixed enumerated set of attribute kinds and error (return `none`, modelling
the thrown `Error`) on every other kind; `getPrimitiveMode` succeeds exactly
on its recognized fill modes and errors on every unmapped fill mode. -/
theorem mappings_closed_total :
    (∀ kind : String, (getAccessorType kind).isSome ↔ kind ∈ knownKinds) ∧
    (∀ kind : String, (getAttributeType kind).isSome ↔ kind ∈ knownKinds) ∧
    (∀ fillMode : Nat, (getPrimitiveMode fillMode).isSome ↔ fillMode ∈ recognizedFillModes) := by
  refine ⟨fun kind => ?_, fun kind => ?_, fun fillMode => ?_⟩
  · constructor
    · intro h
      by_contra hmem
      simp only [knownKinds, List.mem_cons, List.not_mem_nil, or_false] at hmem
      push_neg at hmem
      obtain ⟨n1, n2, n3, n4, n5, n6, n7, n8, n9, n10, n11, n12, n13, n14⟩ := hmem
      unfold getAccessorType at h
      rw [if_neg n1, if_neg n2, if_neg n3, if_neg n4, if_neg n5, if_neg n6, if_neg n7,
        if_neg n8, if_neg n9, if_neg n10, if_neg n11, if_neg n12, if_neg n13, if_neg n14] at h
      simp at h
    · intro hmem
      simp only [knownKinds, List.mem_cons, List.not_mem_nil, or_false] at hmem
      rcases hmem with h | h | h | h | h | h | h | h | h | h | h | h | h | h <;> subst h <;>
        decide
  · constructor
    · intro h
      by_contra hmem
      simp only [knownKinds, List.mem_cons, List.not_mem_nil, or_false] at hmem
      push_neg at hmem
      obtain ⟨n1, n2, n3, n4, n5, n6, n7, n8, n9, n10, n11, n12, n13, n14⟩ := hmem
      unfold getAttributeType at h
      rw [if_neg n1, if_neg n2, if_neg n4, if_neg n3, if_neg n9, if_neg n10, if_neg n11,
        if_neg n12, if_neg n13, if_neg n14, if_neg n5, if_neg n6, if_neg n7, if_neg n8] at h
      simp at h
    · intro hmem
      simp only [knownKinds, List.mem_cons, List.not_mem_nil, or_false] at hmem
      rcases hmem with h | h | h | h | h | h | h | h | h | h | h | h | h | h <;> subst h <;>
        decide
  · constructor
    · intro h
      by_contra hmem
      simp only [recognizedFillModes, List.mem_cons, List.not_mem_nil, or_false] at hmem
      push_neg at hmem
      obtain ⟨n1, n2, n3, n4, n5, n6, n7, n8⟩ := hmem
      unfold getPrimitiveMode at h
      rw [if_neg n1, if_neg n2, if_neg n3, if_neg n4, if_neg n5, if_neg n6, if_neg n7,
        if_neg n8] at h
      simp at h
    · intro hmem
      simp only [recognizedFillModes, List.mem_cons, List.not_mem_nil, or_false] at hmem
      rcases hmem with h | h | h | h | h | h | h | h <;> subst h <;> decide

/-- C10: the recursive extension-hook chain equals an ordered fold over the
extension list in which each hook receives the artifact carried so far and
either replaces it or (by declining) passes it through unchanged. -/
theorem applyExtension_eq_foldSpec {α : Type} (node : Option α)
    (extensions : List (Option α → Option (Option α))) :
    applyExtension node extensions = applyExtensionsFoldSpec node extensions := by
  induction extensions generalizing node with
  | nil => rfl
  | cons ext rest ih =>
    unfold applyExtension applyExtensionsFoldSpec
    cases h : ext node <;> simp [h, ih, applyExtensionsFoldSpec]

end GLTF
